import Mathlib

/-!
Shallow embedding of `src/bob/data_table.py` (django-bob): the
`DataTableColumn` descriptor and the `DataTableMixin` view mixin that adds
pagination, column sorting and CSV export to a Django list view.

Python exceptions are made explicit with `Except PyError`; Python attribute
lookup on objects that may lack the attribute is modelled with `Option`
(where `none` means the attribute is absent and `getattr` raises
`AttributeError`).  Django collaborators that the mixin calls into
(`django.core.paginator.Paginator`, queryset `order_by`, `QueryDict.get`,
`get_FOO_display`) are embedded from their documented semantics.
-/

namespace Bob

/-- Exceptions that can surface in the embedded fragment. -/
inductive PyError where
  | attributeError (attr : String)
  | fieldDoesNotExist
  | valueError
  | emptyPage
  deriving Repr, DecidableEq

/-- A Python value as it can appear in a table cell: the embedding needs
strings, integers and `None` (enough to distinguish truthy from falsy
attribute values). -/
inductive PyVal where
  | str (s : String)
  | int (n : Int)
  | pyNone
  deriving Repr, DecidableEq

/-- Python truthiness for the values above: `''`, `0` and `None` are falsy. -/
def PyVal.truthy : PyVal → Bool
  | .str s => s ≠ ""
  | .int n => n ≠ 0
  | .pyNone => false

/--
`DataTableColumn.__init__` stores exactly `header_name`, `field`, `type`,
`selectable` and `bob_tag`.  The mixin additionally reads `col.export` and
`col.sort_expression`, attributes the constructor never sets; they exist only
when client code assigns them.  The two trailing `Option` fields model those
dynamic attributes: `none` means the attribute is absent, so reading it
raises `AttributeError`.  (`export` is a Lean keyword, hence `export_flag`.)
-/
structure DataTableColumn where
  header_name : String
  field : Option String := none
  type : Option String := none
  selectable : Option Bool := none
  bob_tag : Option Bool := none
  export_flag : Option Bool := none
  sort_expression : Option String := none
  deriving Repr, DecidableEq

/-- A model field descriptor: Django fields always carry a `choices`
attribute (possibly empty). -/
structure ModelField where
  name : String
  choices : List (PyVal × String) := []
  deriving Repr, DecidableEq

/-- The Django model class, as far as `get_cell` consults it:
`model._meta.get_field_by_name(field)` succeeds iff the field exists and
raises `FieldDoesNotExist` otherwise. -/
structure Model where
  fields : List ModelField
  deriving Repr, DecidableEq

/-- Whether `model._meta.get_field_by_name(field)` succeeds. -/
def Model.hasField (m : Model) (field : String) : Bool :=
  (m.fields.find? (fun f => f.name == field)).isSome

/--
A model instance.  `attrs` are its plain attributes (`getattr(obj, f)`
raises `AttributeError` when `f` is not a key).  `display` records the
`get_<f>_display` methods Django attaches for fields declared with choices,
mapped to the (textual) value such a call returns; `getattr(obj,
'get_' + f + '_display')` raises `AttributeError` when `f` is not a key.
-/
structure Obj where
  attrs : List (String × PyVal) := []
  display : List (String × String) := []
  deriving Repr, DecidableEq

/-- `getattr(obj, f)` for plain attributes. -/
def Obj.attrOf (o : Obj) (f : String) : Option PyVal :=
  (o.attrs.find? (fun p => p.1 == f)).map Prod.snd

/-- Result of calling `obj.get_<f>_display()`, when that method exists. -/
def Obj.displayOf (o : Obj) (f : String) : Option String :=
  (o.display.find? (fun p => p.1 == f)).map Prod.snd

/-- A Django queryset: the rows it would yield, plus the ordering expression
last applied with `order_by` (the part of ordering state the mixin
observes).  Queryset truthiness is non-emptiness. -/
structure QuerySet where
  items : List Obj
  order_expr : Option String := none
  deriving Repr, DecidableEq

/-- `queryset.order_by(expr)` returns a clone ordered by `expr`. -/
def QuerySet.order_by (qs : QuerySet) (expr : String) : QuerySet :=
  { qs with order_expr := some expr }

/-- The HTTP request, reduced to its GET query parameters. -/
structure Request where
  GET : List (String × String) := []
  deriving Repr, DecidableEq

/-- `request.GET.get(key)`: Django's `MultiValueDict.get` returns the last
value for the key, or `None` when the key is absent. -/
def Request.get (r : Request) (k : String) : Option String :=
  (r.GET.reverse.find? (fun p => p.1 == k)).map Prod.snd

/-- Python `str.strip('-')`: removes `'-'` characters from both ends. -/
def pyStripDash (s : String) : String :=
  String.mk (((s.toList.dropWhile (fun c => c == '-')).reverse.dropWhile
    (fun c => c == '-')).reverse)

/-- Python `str.startswith('-')`. -/
def pyStartsWithDash (s : String) : Bool :=
  match s.toList with
  | '-' :: _ => true
  | _ => false

/-- Python `int(s)` on a string: optional surrounding whitespace, an
optional sign, then at least one decimal digit; anything else raises
`ValueError` (`none` here). -/
def pyInt (s : String) : Option Int :=
  let t := ((s.toList.dropWhile Char.isWhitespace).reverse.dropWhile
    Char.isWhitespace).reverse
  let core : List Char → Option Nat := fun ds =>
    if ds ≠ [] ∧ ds.all Char.isDigit then
      some (ds.foldl (fun acc c => acc * 10 + (c.toNat - 48)) 0)
    else none
  match t with
  | '-' :: rest => (core rest).map (fun n => -(n : Int))
  | '+' :: rest => (core rest).map (fun n => (n : Int))
  | _ => (core t).map (fun n => (n : Int))

/-- Lookup in a Python `dict` built from an association list: a later
binding of the same key overrides an earlier one, and `dict.get` returns
`None` on a missing key. -/
def dictGet (entries : List (Option String × String)) (key : Option String) :
    Option String :=
  (entries.reverse.find? (fun p => p.1 == key)).map Prod.snd

/-!
### The Django paginator

`django.core.paginator.Paginator` is a framework collaborator (not code of
this repository); it is embedded from its documented behaviour with the
defaults the mixin uses (`orphans=0`, `allow_empty_first_page=True`):
`num_pages = ceil(max(1, count) / per_page)`, and `page(number)` raises
`EmptyPage` when `number < 1` or `number > num_pages`, otherwise returns
the slice `object_list[(number-1)*per_page : number*per_page]`.
(`page` raises `PageNotAnInteger` only for non-integer input, which the
mixin never passes, so that branch does not arise here.)
-/

/-- `Paginator(queryset, per_page)`. -/
structure Paginator where
  object_list : QuerySet
  per_page : Nat
  deriving Repr, DecidableEq

/-- One page of results, as handed to the template. -/
structure Page where
  object_list : List Obj
  number : Nat
  deriving Repr, DecidableEq

def Paginator.count (p : Paginator) : Nat := p.object_list.items.length

def Paginator.num_pages (p : Paginator) : Nat :=
  (max 1 p.count + p.per_page - 1) / p.per_page

/-- `Paginator.validate_number` on an integer argument. -/
def Paginator.validate_number (p : Paginator) (n : Int) : Except PyError Nat :=
  if n < 1 then .error .emptyPage
  else if n > (p.num_pages : Int) ∧ n ≠ 1 then .error .emptyPage
  else .ok n.toNat

/-- `Paginator.page(number)`. -/
def Paginator.page (p : Paginator) (n : Int) : Except PyError Page := do
  let number ← p.validate_number n
  let bottom := (number - 1) * p.per_page
  .ok ⟨(p.object_list.items.drop bottom).take p.per_page, number⟩

/-- A `django.http.HttpResponse`, reduced to what `do_csv_export` sets. -/
structure HttpResponse where
  content : String
  content_type : String
  headers : List (String × String) := []
  deriving Repr, DecidableEq

/-- `response[h]` lookup among the headers set on the response. -/
def HttpResponse.header (r : HttpResponse) (h : String) : Option String :=
  (r.headers.find? (fun p => p.1 == h)).map Prod.snd

/-!
### `bob.csvutil.UnicodeWriter`

Modelled from the spec: `bob/csvutil.py` is code of this repository that is
not under `src/`; the spec describes it as "a Unicode-safe CSV writer" used
to write the rows of the export.  `writerows` is modelled as standard CSV
serialisation: fields containing a delimiter, quote or line break are
quoted with internal quotes doubled, fields are joined with `','` and rows
terminated with `"\r\n"`.
-/

def csvField (s : String) : String :=
  if s.toList.any (fun c => c == ',' ∨ c == '"' ∨ c == '\n' ∨ c == '\r') then
    "\"" ++ String.mk (s.toList.foldr
      (fun c acc => if c == '"' then '"' :: '"' :: acc else c :: acc) []) ++ "\""
  else s

def writerows (rows : List (List String)) : String :=
  String.join (rows.map
    (fun r => String.intercalate "," (r.map csvField) ++ "\r\n"))

/-!
### The mixin state

`DataTableMixin` keeps per-request state on `self`.  The structure below
holds the class-level defaults (`csv_file_name`, `query_variable_name`,
`rows_per_page`, `sort`), the attributes the documentation tells the view to
define (`sort_variable_name`, `export_variable_name`, `columns`, and the
request object Django's view machinery provides), and the attributes the
methods assign (`sortable_columns`, `page_number`, `paginator`,
`page_contents`, `response`).  Methods are state transformers; a raised
exception aborts the method and leaves `self` with the assignments made so
far, which the `Except` return models by carrying no updated state.
-/
structure DataTableMixinState where
  csv_file_name : String := "file.csv"
  query_variable_name : String := "page"
  rows_per_page : Nat := 15
  sort : Option String := none
  sort_variable_name : String
  export_variable_name : String
  columns : List DataTableColumn
  request : Request
  sortable_columns : List (Option String × String) := []
  page_number : Option Int := none
  paginator : Option Paginator := none
  page_contents : Option Page := none
  response : Option HttpResponse := none

/-- `get_csv_header`: the list comprehension
`[col.header_name for col in self.columns if col.export]` evaluates
`col.export` left to right; the first column lacking the attribute raises
`AttributeError`. -/
def get_csv_header : List DataTableColumn → Except PyError (List String)
  | [] => .ok []
  | c :: cs => do
    match c.export_flag with
    | none => .error (.attributeError "export")
    | some e =>
      let rest ← get_csv_header cs
      if e then .ok (c.header_name :: rest) else .ok rest

/-- `get_cell(obj, field, model)`: tries the choice-display accessor (both
`FieldDoesNotExist` from `_meta.get_field_by_name` and `AttributeError`
from the missing `get_<field>_display` method are swallowed), then, if the
cell is still falsy, the raw attribute (`AttributeError` swallowed), and
returns `''` if everything failed.  `obj` is `None`-able (`if obj:`). -/
def get_cell (obj : Option Obj) (field : String) (model : Model) : PyVal :=
  match obj with
  | none => .str ""
  | some o =>
    let cell : PyVal :=
      if model.hasField field then
        match o.displayOf field with
        | some v => .str v
        | none => .str ""
      else .str ""
    if cell.truthy then cell
    else
      match o.attrOf field with
      | some v => v
      | none => cell

/-- `prepare_sortable_columns` builds
`dict((c.field, c.sort_expression) for c in self.columns if c.sort_expression)`;
evaluating `c.sort_expression` on a column that lacks the attribute raises
`AttributeError`.  The resulting association list is read through
`dictGet`. -/
def prepare_sortable_columns :
    List DataTableColumn → Except PyError (List (Option String × String))
  | [] => .ok []
  | c :: cs =>
    match c.sort_expression with
    | none => .error (.attributeError "sort_expression")
    | some se => do
      let rest ← prepare_sortable_columns cs
      if se ≠ "" then .ok ((c.field, se) :: rest) else .ok rest

/-- `sort_queryset(queryset, columns, sort=None)`. -/
def sort_queryset (st : DataTableMixinState) (queryset : QuerySet)
    (columns : List DataTableColumn) (sortArg : Option String) :
    Except PyError (DataTableMixinState × QuerySet) := do
  let entries ← prepare_sortable_columns st.columns
  let st := { st with sortable_columns := entries }
  if columns ≠ [] ∧ queryset.items ≠ [] then
    let sort : Option String :=
      match sortArg with
      | none => st.request.get st.sort_variable_name
      | some s => some s
    match sort with
    | some s =>
      if s ≠ "" then
        match dictGet st.sortable_columns (some (pyStripDash s)) with
        | some sc =>
          if sc ≠ "" then
            let sc := if pyStartsWithDash s then "-" ++ sc else sc
            .ok ({ st with sort := some sc }, queryset.order_by sc)
          else .ok (st, queryset)
        | none => .ok (st, queryset)
      else .ok (st, queryset)
    | none => .ok (st, queryset)
  else .ok (st, queryset)

/-- `_paginate(queryset)`: `page = request.GET.get(...) or 1` (so a missing
or empty parameter becomes the integer 1), `int(page)` with `ValueError`
mapped to 1, then `paginator.page(page_number)` with `EmptyPage` mapped to
`paginator.page(1)`. -/
def _paginate (st : DataTableMixinState) (queryset : QuerySet) :
    Except PyError (DataTableMixinState × Page) := do
  let page_number : Int :=
    match st.request.get st.query_variable_name with
    | none => 1
    | some s => if s = "" then 1 else (pyInt s).getD 1
  let st := { st with page_number := some page_number }
  let paginator : Paginator := ⟨queryset, st.rows_per_page⟩
  let st := { st with paginator := some paginator }
  let page_contents ←
    match paginator.page page_number with
    | .error .emptyPage => paginator.page 1
    | r => r
  .ok (st, page_contents)

/-- `export_requested()`: `request.GET.get(self.export_variable_name) == 'csv'`
(`None == 'csv'` is `False`). -/
def export_requested (st : DataTableMixinState) : Bool :=
  st.request.get st.export_variable_name == some "csv"

/-- `do_csv_export(queryset)`: writes the rows produced by the overridable
`get_csv_data` hook (passed here explicitly, since the base implementation
is a stub meant to be overridden) with the CSV writer, and wraps them in an
attachment response. -/
def do_csv_export (st : DataTableMixinState)
    (get_csv_data : QuerySet → List (List String)) (queryset : QuerySet) :
    HttpResponse :=
  let data := get_csv_data queryset
  { content := writerows data
    content_type := "application/csv"
    headers := [("Content-Disposition",
      "attachment; filename=" ++ st.csv_file_name)] }

/-- `data_table_query(queryset)`: sort, then export or _paginate. -/
def data_table_query (st : DataTableMixinState)
    (get_csv_data : QuerySet → List (List String)) (queryset : QuerySet) :
    Except PyError DataTableMixinState := do
  let (st, queryset) ← sort_queryset st queryset st.columns none
  if export_requested st then
    .ok { st with response := some (do_csv_export st get_csv_data queryset) }
  else
    let (st, pc) ← _paginate st queryset
    .ok { st with page_contents := some pc }

/-!
## Helper lemmas
-/

/-- Reduction of the `Except` monad's bind on a success value. -/
theorem exceptBind_ok {α β ε : Type} (a : α) (f : α → Except ε β) :
    (Except.ok a >>= f) = f a := rfl

/-- Reduction of the `Except` monad's bind on an error value. -/
theorem exceptBind_error {α β ε : Type} (e : ε) (f : α → Except ε β) :
    ((Except.error e : Except ε α) >>= f) = Except.error e := rfl

/-- `paginator.page(1)` always succeeds and yields the first
`per_page`-sized slice (with `allow_empty_first_page=True`, page 1 exists
even for an empty object list). -/
theorem Paginator.page_one (p : Paginator) :
    p.page 1 = .ok ⟨p.object_list.items.take p.per_page, 1⟩ := by
  simp [Paginator.page, Paginator.validate_number, exceptBind_ok]

/-- With a positive page size there is at least one page. -/
theorem Paginator.one_le_num_pages (p : Paginator) (h : 0 < p.per_page) :
    1 ≤ p.num_pages := by
  have h1 : 1 ≤ max 1 p.count := le_max_left _ _
  have h2 : p.per_page ≤ max 1 p.count + p.per_page - 1 := by omega
  exact (Nat.one_le_div_iff h).mpr h2

/-- The only exception `Paginator.page` can raise on an integer is
`EmptyPage`. -/
theorem Paginator.page_error_emptyPage (p : Paginator) (n : Int) (e : PyError)
    (h : p.page n = .error e) : e = .emptyPage := by
  unfold Paginator.page Paginator.validate_number at h
  split at h
  · simp [exceptBind_error] at h; exact h.symm
  · split at h
    · simp [exceptBind_error] at h; exact h.symm
    · simp [exceptBind_ok] at h

/-- `_paginate` never raises: the `ValueError` of `int` is caught, the
`EmptyPage` of the requested page falls back to page 1, and page 1 always
exists. -/
theorem paginate_ok (st : DataTableMixinState) (qs : QuerySet) :
    ∃ r, _paginate st qs = .ok r := by
  cases hr : _paginate st qs with
  | ok r => exact ⟨r, rfl⟩
  | error e =>
    exfalso
    simp only [_paginate] at hr
    cases hpg : Paginator.page ⟨qs, st.rows_per_page⟩
        (match st.request.get st.query_variable_name with
         | none => 1
         | some s => if s = "" then 1 else (pyInt s).getD 1) with
    | ok pg => rw [hpg] at hr; simp [exceptBind_ok] at hr
    | error e' =>
      have he := Paginator.page_error_emptyPage _ _ _ hpg
      subst he
      rw [hpg] at hr
      simp [Paginator.page_one, exceptBind_ok] at hr

/-!
## Concrete fixtures for instantiating the theorems
-/

/-- A fully configured column (client code has also set the dynamic
`export` and `sort_expression` attributes). -/
def nameColumn : DataTableColumn :=
  { header_name := "Name", field := some "name", export_flag := some true,
    sort_expression := some "name" }

/-- A mixin state as the documentation tells a view to set it up, with the
given GET parameters. -/
def sampleState (params : List (String × String)) : DataTableMixinState :=
  { sort_variable_name := "sort", export_variable_name := "export",
    columns := [nameColumn], request := ⟨params⟩ }

def sampleObj (v : String) : Obj := { attrs := [("name", .str v)] }

def sampleQs : QuerySet := ⟨[sampleObj "a", sampleObj "b", sampleObj "c"], none⟩

/-!
## Claim theorems
-/

/-- C6: `export_requested` returns `True` exactly when the export query
parameter is present with the value `'csv'`; a missing parameter or any
other value (including other capitalisations) does not trigger export. -/
theorem export_requested_iff_csv (st : DataTableMixinState) :
    export_requested st = true ↔
      st.request.get st.export_variable_name = some "csv" := by
  simp [export_requested]

/-- C8: `do_csv_export` returns a response with content type
`application/csv`, a `Content-Disposition` header marking an attachment
named by `csv_file_name`, and the CSV serialisation of the rows produced by
the `get_csv_data` hook as its body. -/
theorem do_csv_export_response (st : DataTableMixinState)
    (get_csv_data : QuerySet → List (List String)) (qs : QuerySet) :
    (do_csv_export st get_csv_data qs).content_type = "application/csv" ∧
    (do_csv_export st get_csv_data qs).header "Content-Disposition" =
      some ("attachment; filename=" ++ st.csv_file_name) ∧
    (do_csv_export st get_csv_data qs).content =
      writerows (get_csv_data qs) := by
  refine ⟨rfl, ?_, rfl⟩
  simp [do_csv_export, HttpResponse.header]

/-- C10: when the page query parameter is absent or the empty string,
`_paginate` uses page number 1 and returns the first page. -/
theorem paginate_absent_or_empty_page_param (st : DataTableMixinState)
    (qs : QuerySet)
    (h : st.request.get st.query_variable_name = none ∨
         st.request.get st.query_variable_name = some "") :
    _paginate st qs = .ok
      ({ st with page_number := some 1,
                 paginator := some ⟨qs, st.rows_per_page⟩ },
       ⟨qs.items.take st.rows_per_page, 1⟩) := by
  rcases h with h | h <;>
    simp [_paginate, h, Paginator.page_one, exceptBind_ok]

/-- Witness for C10 at a concrete request with no page parameter. -/
theorem paginate_absent_or_empty_page_param_witness :
    _paginate (sampleState []) sampleQs = .ok
      ({ sampleState [] with page_number := some 1,
                             paginator := some ⟨sampleQs, 15⟩ },
       ⟨sampleQs.items.take 15, 1⟩) :=
  paginate_absent_or_empty_page_param (sampleState []) sampleQs (Or.inl rfl)

/-- C2: a page parameter that `int` cannot parse falls back to page
number 1, and `_paginate` returns the first page. -/
theorem paginate_non_numeric_page (st : DataTableMixinState) (qs : QuerySet)
    (s : String)
    (hget : st.request.get st.query_variable_name = some s)
    (hnn : pyInt s = none) :
    _paginate st qs = .ok
      ({ st with page_number := some 1,
                 paginator := some ⟨qs, st.rows_per_page⟩ },
       ⟨qs.items.take st.rows_per_page, 1⟩) := by
  by_cases hs : s = ""
  · subst hs
    simp [_paginate, hget, Paginator.page_one, exceptBind_ok]
  · simp [_paginate, hget, hs, hnn, Paginator.page_one, exceptBind_ok]

/-- Witness for C2 at the concrete page parameter `"abc"`. -/
theorem paginate_non_numeric_page_witness :
    _paginate (sampleState [("page", "abc")]) sampleQs = .ok
      ({ sampleState [("page", "abc")] with
           page_number := some 1, paginator := some ⟨sampleQs, 15⟩ },
       ⟨sampleQs.items.take 15, 1⟩) :=
  paginate_non_numeric_page (sampleState [("page", "abc")]) sampleQs "abc"
    rfl rfl

/-- C3: a page parameter that parses to an integer below 1 or above the
number of pages raises `EmptyPage` inside the paginator, which `_paginate`
catches by returning the first page. -/
theorem paginate_out_of_range_page (st : DataTableMixinState) (qs : QuerySet)
    (s : String) (n : Int)
    (hper : 0 < st.rows_per_page)
    (hget : st.request.get st.query_variable_name = some s)
    (hparse : pyInt s = some n)
    (hrange : n < 1 ∨ ((⟨qs, st.rows_per_page⟩ : Paginator).num_pages : Int) < n) :
    _paginate st qs = .ok
      ({ st with page_number := some n,
                 paginator := some ⟨qs, st.rows_per_page⟩ },
       ⟨qs.items.take st.rows_per_page, 1⟩) := by
  have hs : s ≠ "" := by
    rintro rfl
    simp [pyInt] at hparse
  have h1 := Paginator.one_le_num_pages ⟨qs, st.rows_per_page⟩ hper
  have hpage : Paginator.page ⟨qs, st.rows_per_page⟩ n = .error .emptyPage := by
    unfold Paginator.page Paginator.validate_number
    rcases hrange with h | h
    · rw [if_pos h]
      rfl
    · have hn1 : ¬ n < 1 := by omega
      have hgt : n > ((⟨qs, st.rows_per_page⟩ : Paginator).num_pages : Int) ∧
          n ≠ 1 := by
        constructor
        · omega
        · omega
      rw [if_neg hn1, if_pos hgt]
      rfl
  simp [_paginate, hget, hs, hparse, hpage, Paginator.page_one, exceptBind_ok]

/-- Witness for C3 at the concrete page parameter `"99"` over a 3-row
queryset with 15 rows per page (a single page). -/
theorem paginate_out_of_range_page_witness :
    _paginate (sampleState [("page", "99")]) sampleQs = .ok
      ({ sampleState [("page", "99")] with
           page_number := some 99, paginator := some ⟨sampleQs, 15⟩ },
       ⟨sampleQs.items.take 15, 1⟩) :=
  paginate_out_of_range_page (sampleState [("page", "99")]) sampleQs "99" 99
    (by decide) rfl rfl (Or.inr (by decide))

/-- Every value stored by `prepare_sortable_columns` is a non-empty string
(the generator filters on the truthiness of `c.sort_expression`). -/
theorem prepare_sortable_columns_values_ne (cols : List DataTableColumn)
    (entries : List (Option String × String))
    (h : prepare_sortable_columns cols = .ok entries) :
    ∀ p ∈ entries, p.2 ≠ "" := by
  induction cols generalizing entries with
  | nil =>
    simp [prepare_sortable_columns] at h
    subst h
    simp
  | cons c cs ih =>
    unfold prepare_sortable_columns at h
    cases hse : c.sort_expression with
    | none => rw [hse] at h; simp at h
    | some se =>
      rw [hse] at h
      cases hr : prepare_sortable_columns cs with
      | error e => rw [hr] at h; simp [exceptBind_error] at h
      | ok rest =>
        rw [hr] at h
        by_cases hne : se = ""
        · subst hne
          simp [exceptBind_ok] at h
          subst h
          exact ih rest hr
        · simp [exceptBind_ok, hne] at h
          subst h
          intro p hp
          rcases List.mem_cons.mp hp with hp | hp
          · subst hp; exact hne
          · exact ih rest hr p hp

/-- A successful `dict.get` returns a value stored in the dict. -/
theorem dictGet_mem (entries : List (Option String × String))
    (k : Option String) (v : String) (h : dictGet entries k = some v) :
    ∃ p ∈ entries, p.2 = v := by
  unfold dictGet at h
  cases hf : entries.reverse.find? (fun p => p.1 == k) with
  | none => rw [hf] at h; simp at h
  | some p =>
    rw [hf] at h
    simp at h
    refine ⟨p, ?_, h⟩
    exact List.mem_reverse.mp (List.mem_of_find?_eq_some hf)

/-- C4: when the sort parameter, stripped of its descending marker, is not
a key of `sortable_columns`, `sort_queryset` returns the queryset unchanged
and does not set `self.sort`. -/
theorem sort_queryset_unknown_key (st : DataTableMixinState) (qs : QuerySet)
    (entries : List (Option String × String)) (s : String)
    (hprep : prepare_sortable_columns st.columns = .ok entries)
    (hcols : st.columns ≠ []) (hqs : qs.items ≠ [])
    (hget : st.request.get st.sort_variable_name = some s)
    (hmiss : dictGet entries (some (pyStripDash s)) = none) :
    sort_queryset st qs st.columns none =
      .ok ({ st with sortable_columns := entries }, qs) ∧
    ({ st with sortable_columns := entries } : DataTableMixinState).sort =
      st.sort := by
  refine ⟨?_, rfl⟩
  by_cases hs : s = ""
  · subst hs
    simp [sort_queryset, hprep, exceptBind_ok, hcols, hqs, hget]
  · simp [sort_queryset, hprep, exceptBind_ok, hcols, hqs, hget, hs, hmiss]

/-- Witness for C4: the concrete sort parameter `"other"` is not a key of
the single-entry mapping, so the queryset comes back unchanged. -/
theorem sort_queryset_unknown_key_witness :
    sort_queryset (sampleState [("sort", "other")]) sampleQs
        (sampleState [("sort", "other")]).columns none =
      .ok ({ sampleState [("sort", "other")] with
               sortable_columns := [(some "name", "name")] }, sampleQs) ∧
    ({ sampleState [("sort", "other")] with
         sortable_columns := [(some "name", "name")] } :
       DataTableMixinState).sort = (sampleState [("sort", "other")]).sort :=
  sort_queryset_unknown_key (sampleState [("sort", "other")]) sampleQs
    [(some "name", "name")] "other" rfl (by decide) (by decide) rfl rfl

/-- C5: a sort parameter with the leading descending marker whose stripped
form maps to expression `e` orders the queryset by `"-" ++ e` and records
that as the resolved sort expression. -/
theorem sort_queryset_descending (st : DataTableMixinState) (qs : QuerySet)
    (entries : List (Option String × String)) (s e : String)
    (hprep : prepare_sortable_columns st.columns = .ok entries)
    (hcols : st.columns ≠ []) (hqs : qs.items ≠ [])
    (hget : st.request.get st.sort_variable_name = some s)
    (hdesc : pyStartsWithDash s = true)
    (hfound : dictGet entries (some (pyStripDash s)) = some e) :
    sort_queryset st qs st.columns none =
      .ok ({ st with sortable_columns := entries, sort := some ("-" ++ e) },
           qs.order_by ("-" ++ e)) := by
  have hs : s ≠ "" := by
    rintro rfl
    simp [pyStartsWithDash] at hdesc
  have he : e ≠ "" := by
    obtain ⟨p, hp, hpe⟩ := dictGet_mem entries _ e hfound
    exact hpe ▸ prepare_sortable_columns_values_ne st.columns entries hprep p hp
  simp [sort_queryset, hprep, exceptBind_ok, hcols, hqs, hget, hs, hfound, he,
    hdesc]

/-- Witness for C5 at the concrete descending sort parameter `"-name"`. -/
theorem sort_queryset_descending_witness :
    sort_queryset (sampleState [("sort", "-name")]) sampleQs
        (sampleState [("sort", "-name")]).columns none =
      .ok ({ sampleState [("sort", "-name")] with
               sortable_columns := [(some "name", "name")],
               sort := some ("-" ++ "name") },
           sampleQs.order_by ("-" ++ "name")) :=
  sort_queryset_descending (sampleState [("sort", "-name")]) sampleQs
    [(some "name", "name")] "-name" "name" rfl (by decide) (by decide) rfl rfl
    rfl

/-- C7: for a non-null instance, `get_cell` prefers the choice display
value when the field exists on the model and the display accessor yields a
non-empty string; otherwise it falls back to the raw attribute; and when
the raw attribute is also missing it returns the empty string. -/
theorem get_cell_display_fallback (o : Obj) (field : String) (model : Model)
    (v : String) (w : PyVal) :
    (model.hasField field = true → o.displayOf field = some v → v ≠ "" →
      get_cell (some o) field model = .str v) ∧
    (¬ (model.hasField field = true ∧
          ∃ u, o.displayOf field = some u ∧ u ≠ "") →
      (o.attrOf field = some w → get_cell (some o) field model = w) ∧
      (o.attrOf field = none → get_cell (some o) field model = .str "")) := by
  constructor
  · intro hf hd hv
    simp [get_cell, hf, hd, PyVal.truthy, hv]
  · intro hno
    have hcell : (if model.hasField field then
          match o.displayOf field with
          | some u => PyVal.str u
          | none => PyVal.str ""
        else PyVal.str "") = PyVal.str "" := by
      by_cases hf : model.hasField field = true
      · cases hd : o.displayOf field with
        | none => simp [hf, hd]
        | some u =>
          have hu : u = "" := by
            by_contra hu
            exact hno ⟨hf, u, hd, hu⟩
          subst hu
          simp [hf, hd]
      · simp [Bool.not_eq_true] at hf
        simp [hf]
    constructor
    · intro ha
      simp [get_cell, hcell, PyVal.truthy, ha]
    · intro ha
      simp [get_cell, hcell, PyVal.truthy, ha]

/-- Witness for C7: a choice field with a display value, a plain attribute
fallback, and a missing attribute, each at concrete inputs. -/
theorem get_cell_display_fallback_witness :
    get_cell (some ⟨[("status", .int 2)], [("status", "Active")]⟩) "status"
        ⟨[⟨"status", [(.int 2, "Active")]⟩]⟩ = .str "Active" ∧
    get_cell (some ⟨[("size", .int 7)], []⟩) "size" ⟨[]⟩ = .int 7 ∧
    get_cell (some (⟨[], []⟩ : Obj)) "size" ⟨[]⟩ = .str "" := by
  refine ⟨?_, ?_, ?_⟩
  · exact (get_cell_display_fallback
      ⟨[("status", .int 2)], [("status", "Active")]⟩ "status"
      ⟨[⟨"status", [(.int 2, "Active")]⟩]⟩ "Active" .pyNone).1 rfl rfl
      (by decide)
  · exact ((get_cell_display_fallback ⟨[("size", .int 7)], []⟩ "size" ⟨[]⟩
      "" (.int 7)).2
      (by rintro ⟨hf, u, hu, _⟩; simp [Model.hasField] at hf)).1 rfl
  · exact ((get_cell_display_fallback ⟨[], []⟩ "size" ⟨[]⟩ "" .pyNone).2
      (by rintro ⟨hf, u, hu, _⟩; simp [Model.hasField] at hf)).2 rfl

/-- Whether an `Except` computation finished without raising. -/
def exceptIsOk {ε α : Type} : Except ε α → Bool
  | .ok _ => true
  | .error _ => false

/-- `sort_queryset` (whatever branch it takes) never changes `self.columns`
or any column descriptor in it. -/
theorem sort_queryset_columns_eq (st : DataTableMixinState) (qs : QuerySet)
    (cols : List DataTableColumn) (sa : Option String)
    (st' : DataTableMixinState) (qs' : QuerySet)
    (h : sort_queryset st qs cols sa = .ok (st', qs')) :
    st'.columns = st.columns := by
  unfold sort_queryset at h
  cases hp : prepare_sortable_columns st.columns with
  | error e => rw [hp] at h; simp [exceptBind_error] at h
  | ok entries =>
    rw [hp] at h
    simp only [exceptBind_ok] at h
    repeat' split at h
    all_goals simp only [Except.ok.injEq, Prod.mk.injEq] at h
    all_goals
      (obtain ⟨h1, h2⟩ := h
       subst h1
       rfl)

/-- `_paginate` never changes `self.columns`. -/
theorem paginate_columns_eq (st : DataTableMixinState) (qs : QuerySet)
    (st' : DataTableMixinState) (pg : Page)
    (h : _paginate st qs = .ok (st', pg)) : st'.columns = st.columns := by
  simp only [_paginate] at h
  cases hpg : Paginator.page ⟨qs, st.rows_per_page⟩
      (match st.request.get st.query_variable_name with
       | none => 1
       | some s => if s = "" then 1 else (pyInt s).getD 1) with
  | ok pg' =>
    rw [hpg] at h
    simp [exceptBind_ok] at h
    obtain ⟨h1, h2⟩ := h
    subst h1
    rfl
  | error e =>
    have he := Paginator.page_error_emptyPage _ _ _ hpg
    subst he
    rw [hpg] at h
    simp [exceptBind_ok, Paginator.page_one] at h
    obtain ⟨h1, h2⟩ := h
    subst h1
    rfl

/-- `data_table_query` never changes `self.columns`. -/
theorem data_table_query_columns_eq (st : DataTableMixinState)
    (hook : QuerySet → List (List String)) (qs : QuerySet)
    (st' : DataTableMixinState)
    (h : data_table_query st hook qs = .ok st') :
    st'.columns = st.columns := by
  unfold data_table_query at h
  cases hs : sort_queryset st qs st.columns none with
  | error e => rw [hs] at h; simp [exceptBind_error] at h
  | ok r =>
    obtain ⟨st1, qs1⟩ := r
    have h1 : st1.columns = st.columns :=
      sort_queryset_columns_eq st qs st.columns none st1 qs1 hs
    rw [hs] at h
    simp only [exceptBind_ok] at h
    split at h
    · simp only [Except.ok.injEq] at h
      subst h
      exact h1
    · cases hp : _paginate st1 qs1 with
      | error e => rw [hp] at h; simp [exceptBind_error] at h
      | ok r2 =>
        obtain ⟨st2, pg⟩ := r2
        have h2 : st2.columns = st1.columns :=
          paginate_columns_eq st1 qs1 st2 pg hp
        rw [hp] at h
        simp only [exceptBind_ok, Except.ok.injEq] at h
        subst h
        exact h2.trans h1

/-- C9: no operation of the mixin modifies a column descriptor: whatever
state `sort_queryset`, `_paginate` or `data_table_query` produce carries
the same column list (hence the same descriptors, field for field), and
`prepare_sortable_columns` and `get_csv_header` only read the columns. -/
theorem columns_never_modified (st : DataTableMixinState)
    (hook : QuerySet → List (List String)) (qs : QuerySet) :
    (∀ st' qs', sort_queryset st qs st.columns none = .ok (st', qs') →
      st'.columns = st.columns) ∧
    (∀ st' pg, _paginate st qs = .ok (st', pg) → st'.columns = st.columns) ∧
    (∀ st', data_table_query st hook qs = .ok st' →
      st'.columns = st.columns) :=
  ⟨fun st' qs' h => sort_queryset_columns_eq st qs st.columns none st' qs' h,
   fun st' pg h => paginate_columns_eq st qs st' pg h,
   fun st' h => data_table_query_columns_eq st hook qs st' h⟩

/-- Witness for C9 at a concrete state: running `sort_queryset` leaves the
column list untouched. -/
theorem columns_never_modified_witness :
    ({ sampleState [] with
         sortable_columns := [(some "name", "name")] } :
       DataTableMixinState).columns = (sampleState []).columns :=
  (columns_never_modified (sampleState []) (fun _ => []) sampleQs).1
    { sampleState [] with sortable_columns := [(some "name", "name")] }
    sampleQs rfl

/-- A column exactly as `DataTableColumn.__init__` constructs it: no
`export` and no `sort_expression` attribute. -/
def plainColumn : DataTableColumn :=
  { header_name := "Name", field := some "name" }

/-- A view configured with such a plainly constructed column. -/
def plainState : DataTableMixinState :=
  { sort_variable_name := "sort", export_variable_name := "export",
    columns := [plainColumn], request := ⟨[]⟩ }

/-- C1 counterexample: with a column built by `DataTableColumn.__init__`
alone, `prepare_sortable_columns` and `get_csv_header` raise
`AttributeError` (for the never-assigned `sort_expression` and `export`
attributes), and the error propagates out of `sort_queryset` and
`data_table_query` — so not every operation of the mixin is
exception-free. -/
theorem mixin_operations_raise_attributeError :
    prepare_sortable_columns plainState.columns =
      .error (.attributeError "sort_expression") ∧
    get_csv_header plainState.columns = .error (.attributeError "export") ∧
    sort_queryset plainState sampleQs plainState.columns none =
      .error (.attributeError "sort_expression") ∧
    data_table_query plainState (fun _ => []) sampleQs =
      .error (.attributeError "sort_expression") :=
  ⟨rfl, rfl, rfl, rfl⟩

/-- When every column carries an `export` attribute, `get_csv_header`
succeeds. -/
theorem get_csv_header_ok (cols : List DataTableColumn)
    (h : ∀ c ∈ cols, c.export_flag.isSome) :
    ∃ hdr, get_csv_header cols = .ok hdr := by
  induction cols with
  | nil => exact ⟨[], rfl⟩
  | cons c cs ih =>
    cases he : c.export_flag with
    | none => exact absurd (h c (by simp)) (by simp [he])
    | some e =>
      obtain ⟨hdr, hh⟩ := ih (fun c' hc => h c' (by simp [hc]))
      refine ⟨if e then c.header_name :: hdr else hdr, ?_⟩
      cases e <;> simp [get_csv_header, he, hh, exceptBind_ok]

/-- When every column carries a `sort_expression` attribute,
`prepare_sortable_columns` succeeds. -/
theorem prepare_sortable_columns_ok (cols : List DataTableColumn)
    (h : ∀ c ∈ cols, c.sort_expression.isSome) :
    ∃ entries, prepare_sortable_columns cols = .ok entries := by
  induction cols with
  | nil => exact ⟨[], rfl⟩
  | cons c cs ih =>
    cases he : c.sort_expression with
    | none => exact absurd (h c (by simp)) (by simp [he])
    | some se =>
      obtain ⟨rest, hr⟩ := ih (fun c' hc => h c' (by simp [hc]))
      by_cases hne : se = ""
      · subst hne
        exact ⟨rest, by simp [prepare_sortable_columns, he, hr, exceptBind_ok]⟩
      · exact ⟨(c.field, se) :: rest,
          by simp [prepare_sortable_columns, he, hr, hne, exceptBind_ok]⟩

/-- Once `prepare_sortable_columns` succeeds, every branch of
`sort_queryset` returns normally. -/
theorem sort_queryset_ok (st : DataTableMixinState) (qs : QuerySet)
    (cols : List DataTableColumn) (sa : Option String)
    (entries : List (Option String × String))
    (hp : prepare_sortable_columns st.columns = .ok entries) :
    ∃ r, sort_queryset st qs cols sa = .ok r := by
  cases hr : sort_queryset st qs cols sa with
  | ok r => exact ⟨r, rfl⟩
  | error e =>
    exfalso
    unfold sort_queryset at hr
    rw [hp] at hr
    simp only [exceptBind_ok] at hr
    repeat' split at hr
    all_goals simp at hr

/-- When every column carries a `sort_expression` attribute,
`data_table_query` returns normally. -/
theorem data_table_query_ok (st : DataTableMixinState)
    (hook : QuerySet → List (List String)) (qs : QuerySet)
    (hattrs : ∀ c ∈ st.columns, c.sort_expression.isSome) :
    ∃ st', data_table_query st hook qs = .ok st' := by
  obtain ⟨entries, hp⟩ := prepare_sortable_columns_ok st.columns hattrs
  obtain ⟨r, hs⟩ := sort_queryset_ok st qs st.columns none entries hp
  obtain ⟨st1, qs1⟩ := r
  unfold data_table_query
  rw [hs]
  simp only [exceptBind_ok]
  split
  · exact ⟨_, rfl⟩
  · obtain ⟨r2, hpag⟩ := paginate_ok st1 qs1
    obtain ⟨st2, pg⟩ := r2
    rw [hpag]
    exact ⟨_, rfl⟩

/-- C1 amended: `get_cell` and `do_csv_export` are total, `_paginate`
never raises, and — provided every column actually carries the `export` and
`sort_expression` attributes that `DataTableColumn.__init__` itself never
sets — `get_csv_header`, `sort_queryset` and `data_table_query` do not
raise either: all anticipated failures (bad page number, missing model
field or attribute, absent sort mapping) are caught internally. -/
theorem mixin_operations_no_error_with_attrs (st : DataTableMixinState)
    (hook : QuerySet → List (List String)) (qs : QuerySet)
    (hattrs : ∀ c ∈ st.columns,
      c.export_flag.isSome ∧ c.sort_expression.isSome) :
    exceptIsOk (get_csv_header st.columns) = true ∧
    exceptIsOk (sort_queryset st qs st.columns none) = true ∧
    exceptIsOk (_paginate st qs) = true ∧
    exceptIsOk (data_table_query st hook qs) = true := by
  obtain ⟨entries, hp⟩ :=
    prepare_sortable_columns_ok st.columns (fun c hc => (hattrs c hc).2)
  obtain ⟨hdr, hh⟩ := get_csv_header_ok st.columns (fun c hc => (hattrs c hc).1)
  obtain ⟨r, hs⟩ := sort_queryset_ok st qs st.columns none entries hp
  obtain ⟨rp, hpag⟩ := paginate_ok st qs
  obtain ⟨st', hq⟩ :=
    data_table_query_ok st hook qs (fun c hc => (hattrs c hc).2)
  exact ⟨by rw [hh]; rfl, by rw [hs]; rfl, by rw [hpag]; rfl, by rw [hq]; rfl⟩

/-- Witness for the amended C1 at the concrete fully-attributed state. -/
theorem mixin_operations_no_error_with_attrs_witness :
    exceptIsOk (get_csv_header (sampleState []).columns) = true ∧
    exceptIsOk (sort_queryset (sampleState []) sampleQs
      (sampleState []).columns none) = true ∧
    exceptIsOk (_paginate (sampleState []) sampleQs) = true ∧
    exceptIsOk (data_table_query (sampleState []) (fun _ => []) sampleQs) =
      true :=
  mixin_operations_no_error_with_attrs (sampleState []) (fun _ => []) sampleQs
    (by decide)

end Bob
